import Mathlib

/-!
Verification development for the csserver call-stream processor.

Shallow embedding of the C sources:
* `cscol` (src/unnamed/part_000) — the UDP frame parser / collector,
* `cspm`  (src/unnamed/part_002) — the persistence manager (voice assembly, WAV header),
* `csmm`  (src/csmm.c)           — the media manager (live routing, feeders, playback),
* `wave.h`, `LogApiMsgDef.h`     — record layouts.

Bytes are modelled as `Nat` (values < 256 on the wire); machine words use
explicit `% 2^32` arithmetic where C unsigned overflow matters.
-/

namespace CsServer

/-- Little-endian 32-bit value of four bytes, as produced by
`memcpy (&signature, buffer, 4)` on a little-endian machine. -/
def le32 (b0 b1 b2 b3 : Nat) : Nat :=
  b0 + 256 * b1 + 65536 * b2 + 16777216 * b3

/-- Constant `LOG_API_PROTOCOL_SIGNATURE` from LogApiMsgDef.h. -/
def LOG_API_PROTOCOL_SIGNATURE : Nat := 0x31474F4C

/-- Constant `VOICE_PROTOCOL_SIGNATURE` from LogApiMsgDef.h. -/
def VOICE_PROTOCOL_SIGNATURE : Nat := 0x32474F4C

/-- Constant `CSCOL_BUFFER_LENGTH` from part_000. -/
def CSCOL_BUFFER_LENGTH : Nat := 4096

/-- The `sizeof` of the per-message LogApi structure for each known message id
(LogApiMsgDef.h layouts under natural x86 alignment: header 8 B, `TSI` 8 B,
`Number` 16 B, descriptions 64 B).  Unknown ids yield `none` and the parser
resynchronizes by one byte. -/
def logApiMsgSize (msgId : Nat) : Option Nat :=
  if msgId = 0x01 then some 104        -- LogApiKeepAlive
  else if msgId = 0x10 then some 192   -- LogApiDuplexCallChange
  else if msgId = 0x19 then some 16    -- LogApiDuplexCallRelease
  else if msgId = 0x20 then some 192   -- LogApiSimplexCallStartChange
  else if msgId = 0x21 then some 16    -- LogApiSimplexCallPttChange
  else if msgId = 0x29 then some 16    -- LogApiSimplexCallRelease
  else if msgId = 0x30 then some 104   -- LogApiGroupCallStartChange
  else if msgId = 0x31 then some 104   -- LogApiGroupCallPttActive
  else if msgId = 0x32 then some 16    -- LogApiGroupCallPttIdle
  else if msgId = 0x39 then some 16    -- LogApiGroupCallRelease
  else if msgId = 0x40 then some 188   -- LogApiStatusSDS
  else if msgId = 0x41 then some 696   -- LogApiTextSDS
  else none

/-- An event published by the collector: either a signaling record (the struct
bytes copied out of the buffer, tagged by message id) or a voice frame
(20-byte `LogApiVoice` prefix plus the 480-byte A-law payload). -/
inductive CscolEvent where
  | signal (msgId : Nat) (record : List Nat)
  | voice (header : List Nat) (payload : List Nat)
  deriving DecidableEq, Repr

/-- One iteration of the `while` loop of `cscol_analyze_streaming`
(part_000:1150-1262), entered with more than 4 bytes remaining.
Result: events emitted this iteration, bytes consumed
(`log_api_bytes_processed`), and the message id left in
`ctx->current_header` afterwards.

Mirrors the source faithfully, including the detail that
`cscol_analyze_message_header` (part_000:377-395) only overwrites
`ctx->current_header` when at least `sizeof (TetraFlexLogApiMessageHeader)`
= 8 bytes are buffered, so with 5-7 buffered bytes the `switch` runs on the
stale id. -/
def cscol_parse_step (staleMsgId : Nat) (buf : List Nat) :
    List CscolEvent × Nat × Nat :=
  let sig := le32 (buf.getD 0 0) (buf.getD 1 0) (buf.getD 2 0) (buf.getD 3 0)
  if sig = LOG_API_PROTOCOL_SIGNATURE then
    let msgId := if 8 ≤ buf.length then buf.getD 7 0 else staleMsgId
    match logApiMsgSize msgId with
    | some sz =>
        if sz ≤ buf.length then ([.signal msgId (buf.take sz)], sz, msgId)
        else ([], 0, msgId)
    | none => ([], 1, msgId)
  else if sig = VOICE_PROTOCOL_SIGNATURE then
    if 500 ≤ buf.length then
      ((if buf.getD 18 0 = 7 then
          [.voice (buf.take 20) ((buf.drop 20).take 480)]
        else []), 500, staleMsgId)
    else ([], 0, staleMsgId)
  else ([], 1, staleMsgId)

/-- Iteration of the `while (bytes_remained > 4)` loop of
`cscol_analyze_streaming`, with an explicit fuel for structural
recursion.  Every continuing iteration consumes at least one byte, so fuel
`buf.length` is always sufficient (see `cscol_analyze_loop_fuel`). -/
def cscol_analyze_loop : Nat → Nat → List Nat → List CscolEvent × Nat × Nat
  | 0, staleMsgId, _ => ([], 0, staleMsgId)
  | fuel + 1, staleMsgId, buf =>
    if 4 < buf.length then
      match cscol_parse_step staleMsgId buf with
    | (evs, n, id2) =>
      if n = 0 then ([], 0, id2)
      else
        let rest := cscol_analyze_loop fuel id2 (buf.drop n)
        (evs ++ rest.1, n + rest.2.1, rest.2.2)
    else ([], 0, staleMsgId)

/-- The full parse pass `cscol_analyze_streaming` (part_000:1150-1262): loop
while more than 4 bytes remain; stop as soon as an iteration consumes
nothing.  Returns all emitted events, total bytes consumed, and the final
`current_header` message id. -/
def cscol_analyze_streaming (staleMsgId : Nat) (buf : List Nat) :
    List CscolEvent × Nat × Nat :=
  cscol_analyze_loop buf.length staleMsgId buf

/-- Fuel irrelevance: any fuel of at least `buf.length` computes the same
parse pass, so the fuel in `cscol_analyze_streaming` is an artifact of
structural recursion, not a semantic bound. -/
theorem cscol_analyze_loop_fuel (fuel fuel2 : Nat) (staleMsgId : Nat)
    (buf : List Nat) (h : buf.length ≤ fuel) (h2 : buf.length ≤ fuel2) :
    cscol_analyze_loop fuel staleMsgId buf =
      cscol_analyze_loop fuel2 staleMsgId buf := by
  induction fuel using Nat.strong_induction_on generalizing fuel2 staleMsgId buf with
  | _ fuel ih =>
    match fuel, fuel2 with
    | 0, 0 => rfl
    | 0, f2 + 1 =>
      have hb : buf.length = 0 := Nat.le_zero.mp h
      simp [cscol_analyze_loop, hb]
    | f + 1, 0 =>
      have hb : buf.length = 0 := Nat.le_zero.mp h2
      simp [cscol_analyze_loop, hb]
    | f + 1, f2 + 1 =>
      simp only [cscol_analyze_loop]
      by_cases hlen : 4 < buf.length
      · simp only [if_pos hlen]
        rcases hstep : cscol_parse_step staleMsgId buf with ⟨evs, n, id2⟩
        by_cases hn : n = 0
        · simp [hn]
        · simp only [if_neg hn]
          have hcons : 1 ≤ n := Nat.one_le_iff_ne_zero.mpr hn
          have hdrop : (buf.drop n).length ≤ f := by
            simp only [List.length_drop]; omega
          have hdrop2 : (buf.drop n).length ≤ f2 := by
            simp only [List.length_drop]; omega
          rw [ih f (Nat.lt_succ_self f) f2 id2 (buf.drop n) hdrop hdrop2]
      · simp [if_neg hlen]

/-- Collector state carried across `recvfrom` calls: the message id stored in
`ctx->current_header` (zeroed by `zmalloc` in `cscol_new`, part_000:76-94)
and the unconsumed bytes compacted to the head of `ctx->buffer`
(`ctx->buffer_offset` is their count). -/
structure CscolState where
  staleMsgId : Nat
  leftover : List Nat
  deriving DecidableEq, Repr

/-- The initial collector state built by `cscol_new`: zeroed context, so the
header message id starts at 0 (not a known LogApi id) and the buffer offset
at 0. -/
def cscol_initial : CscolState := ⟨0, []⟩

/-- One invocation of `cscol_callstream_handler` (part_000:1274-1325) upon
receipt of one datagram: append the datagram after the carried tail, run
`cscol_analyze_streaming`, and compact the unconsumed tail to the buffer
head.  A zero-length receive is ignored. -/
def cscol_receive (st : CscolState) (dgram : List Nat) :
    CscolState × List CscolEvent :=
  if dgram = [] then (st, [])
  else
    let buf := st.leftover ++ dgram
    let r := cscol_analyze_streaming st.staleMsgId buf
    (⟨r.2.2, buf.drop r.2.1⟩, r.1)

/-- Run the collector over a sequence of datagrams, collecting all published
events. -/
def cscol_run (st : CscolState) : List (List Nat) → CscolState × List CscolEvent
  | [] => (st, [])
  | d :: ds =>
      let r := cscol_receive st d
      let rest := cscol_run r.1 ds
      (rest.1, r.2 ++ rest.2)

/-- Number of bytes `recvfrom` is permitted to store on a receive call: the
length argument passed at part_000:1288-1290 is always
`CSCOL_BUFFER_LENGTH * sizeof (unsigned char)`, independent of
`ctx->buffer_offset`. -/
def cscol_recv_capacity (_st : CscolState) : Nat := CSCOL_BUFFER_LENGTH

/-- A well-formed 104-byte `LogApiKeepAlive` record: protocol signature
"LOG1", sequence counter 0, api version 1, message id 0x01 = LOG_API_ALIVE,
then a zeroed body. -/
def keepAliveRecord : List Nat :=
  [0x4C, 0x4F, 0x47, 0x31, 0, 0, 1, 0x01] ++ List.replicate 96 0

/-!  ## wave.h and the persistence manager (cspm, src/unnamed/part_002)  -/

/-- Two bytes of a 16-bit little-endian field. -/
def le16bytes (n : Nat) : List Nat := [n % 256, n / 256 % 256]

/-- Four bytes of a 32-bit little-endian field. -/
def le32bytes (n : Nat) : List Nat :=
  [n % 256, n / 256 % 256, n / 65536 % 256, n / 16777216 % 256]

/-- The `WaveHeader` structure of wave.h (declared under `#pragma pack(1)`,
so its serialized size is the plain sum of its field sizes). -/
structure WaveHeader where
  riffId : List Nat
  riffSize : Nat
  waveId : List Nat
  fmtId : List Nat
  fmtSize : Nat
  wFormatTag : Nat
  nChannels : Nat
  nSamplesPerSec : Nat
  nAvgBytesperSec : Nat
  nBlockAlign : Nat
  wBitsPerSample : Nat
  cbSize : Nat
  factId : List Nat
  factSize : Nat
  dwSampleLength : Nat
  dataId : List Nat
  dataSize : Nat
  deriving DecidableEq, Repr

/-- Byte image of a `WaveHeader` as written by
`fwrite (&wave_header, 1, sizeof (wave_header), fp)` /
`zchunk_append (voice_data, &wave_header, sizeof (wave_header))`:
packed, little-endian. -/
def waveHeaderBytes (h : WaveHeader) : List Nat :=
  h.riffId ++ le32bytes h.riffSize ++ h.waveId ++
  h.fmtId ++ le32bytes h.fmtSize ++ le16bytes h.wFormatTag ++
  le16bytes h.nChannels ++ le32bytes h.nSamplesPerSec ++
  le32bytes h.nAvgBytesperSec ++ le16bytes h.nBlockAlign ++
  le16bytes h.wBitsPerSample ++ le16bytes h.cbSize ++
  h.factId ++ le32bytes h.factSize ++ le32bytes h.dwSampleLength ++
  h.dataId ++ le32bytes h.dataSize

/-- `fill_wav_header` (part_002:943-990).  `dataSize` is a `UINT32`
parameter; `riffSize = 4 + 26 + 12 + 8 + dataSize` in C unsigned
arithmetic. -/
def fill_wav_header (call_type : Char) (dataSize : Nat) : WaveHeader :=
  let ds := dataSize % 4294967296
  { riffId := [0x52, 0x49, 0x46, 0x46]               -- "RIFF"
    riffSize := (4 + 26 + 12 + 8 + ds) % 4294967296
    waveId := [0x57, 0x41, 0x56, 0x45]               -- "WAVE"
    fmtId := [0x66, 0x6D, 0x74, 0x20]                -- "fmt "
    fmtSize := 18
    wFormatTag := 6                                  -- A-law
    nChannels := if call_type = 'D' then 2 else 1
    nSamplesPerSec := 8000
    nAvgBytesperSec := if call_type = 'D' then 16000 else 8000
    nBlockAlign := if call_type = 'D' then 2 else 1
    wBitsPerSample := 8
    cbSize := 0
    factId := [0x66, 0x61, 0x63, 0x74]               -- "fact"
    factSize := 4
    dwSampleLength := ds
    dataId := [0x64, 0x61, 0x74, 0x61]               -- "data"
    dataSize := ds }

/-- The `duration_in_seconds` output of `fill_wav_header` (part_002:985-987):
the RIFF size divided by the byte rate
`nSamplesPerSec * nChannels * wBitsPerSample / 8` (C integer arithmetic in
the byte rate).  Modelled over `ℚ`; the C code performs the final division
in `float`, which does not affect the rational value compared here. -/
def wav_duration_seconds (call_type : Char) (dataSize : Nat) : ℚ :=
  let h := fill_wav_header call_type dataSize
  (h.riffSize : ℚ) / ((h.nSamplesPerSec * h.nChannels * h.wBitsPerSample / 8 : Nat) : ℚ)

/-- The sample-by-sample merge of one stream-A chunk with one stream-B chunk
as performed by the `for (i = 0; i < block_size; i++)` loops of
`cspm_save_voice_data` (part_002:1139-1142) and `csmm_voice_data_handler`
(csmm.c:851-854): `block_size` is the length of the B chunk, and both
chunks are read at indices `0 ≤ i < block_size`. -/
def interleave_pair (a b : List Nat) : List Nat :=
  (List.range b.length).flatMap (fun i => [a.getD i 0, b.getD i 0])

/-- The interleaving described by the specification: alternate the samples of
two chunks, `A0, B0, A1, B1, …`. -/
def perfectInterleave (a b : List Nat) : List Nat :=
  (a.zip b).flatMap (fun p => [p.1, p.2])

/-- The lockstep merge of the stream-A and stream-B chunk lists in
`cspm_save_voice_data` (part_002:1130-1146): `while (block_stream_b &&
block_stream_a)`.  The C loop reads the A chunk at every index below the B
chunk's size; when the B chunk is longer than its paired A chunk that read
runs past the A chunk's end (undefined behaviour), modelled as `none`. -/
def cspm_merge_duplex : List (List Nat) → List (List Nat) → Option (List Nat)
  | _, [] => some []
  | [], _ :: _ => some []
  | a :: as, b :: bs =>
    if b.length ≤ a.length then
      match cspm_merge_duplex as bs with
      | some rest => some (interleave_pair a b ++ rest)
      | none => none
    else none

/-- The `voice_data_len` computation of `cspm_save_voice_data`
(part_002:1100-1115) for a Duplex call: lockstep sum of the paired chunk
sizes of both streams. -/
def cspm_duplex_len (as bs : List (List Nat)) : Nat :=
  ((as.zip bs).map (fun p => p.1.length + p.2.length)).sum

/-- The recording materialized by `cspm_save_voice_data`
(part_002:1056-1174) from the per-call chunk lists, together with the
"Chunks without counterpart will be discarded" warning flag
(part_002:1090-1094).  For a Duplex call the body is the lockstep
sample-by-sample merge; otherwise it is the concatenation of the stream-A
chunks.  `none` marks the undefined behaviour of the C merge loop when a B
chunk is longer than its paired A chunk. -/
def cspm_save_voice_data (call_type : Char) (as bs : List (List Nat)) :
    Option (Bool × List Nat) :=
  let warned := call_type = 'D' ∧ as.length ≠ bs.length
  if call_type = 'D' then
    let len := cspm_duplex_len as bs
    let hdr := waveHeaderBytes (fill_wav_header call_type len)
    (cspm_merge_duplex as bs).map (fun body => (decide warned, hdr ++ body))
  else
    let len := (as.map List.length).sum
    let hdr := waveHeaderBytes (fill_wav_header call_type len)
    some (decide warned, hdr ++ as.flatten)

/-- Association-list update used to model the `zhash` tables keyed by the
decimal call-id string (distinct ids give distinct keys). -/
def assocSet {α : Type} (l : List (Nat × α)) (k : Nat) (v : α) : List (Nat × α) :=
  match l with
  | [] => [(k, v)]
  | (k2, v2) :: rest =>
      if k2 = k then (k, v) :: rest else (k2, v2) :: assocSet rest k v

/-- Persistence-manager per-call state: the `zhash` tables
`voice_calls_stream_a`, `voice_calls_stream_b`, `voice_calls_last_activity`
and `voice_calls_types` of `cspm_t` (part_002:45-62). -/
structure CspmState where
  streamA : List (Nat × List (List Nat))
  streamB : List (Nat × List (List Nat))
  lastActivity : List (Nat × Nat)
  types : List (Nat × Char)
  deriving DecidableEq, Repr

/-- The empty persistence-manager state (fresh `zhash_new` tables). -/
def cspmEmpty : CspmState := ⟨[], [], [], []⟩

/-- `cspm_cache_voice_data` (part_002:891-938).  The C code first evaluates
`*call_type` on the result of `zhash_lookup (ctx->voice_calls_types, …)`
before any null check; when no call entry exists that lookup returns NULL
and the dereference is undefined behaviour, modelled as `none`.  Otherwise
the chunk is appended to the stream selected by the call type and
originator, and the last-activity entry is refreshed to `now`. -/
def cspm_cache_voice_data (st : CspmState) (now : Nat) (callId : Nat)
    (originator : Nat) (data : List Nat) : Option CspmState :=
  match st.types.lookup callId with
  | none => none
  | some ct =>
    let useB := ct = 'D' ∧ originator = 2
    let st2 :=
      if useB then
        match st.streamB.lookup callId with
        | some blocks => { st with streamB := assocSet st.streamB callId (blocks ++ [data]) }
        | none => st
      else
        match st.streamA.lookup callId with
        | some blocks => { st with streamA := assocSet st.streamA callId (blocks ++ [data]) }
        | none => st
    match st2.lastActivity.lookup callId with
    | some _ => some { st2 with lastActivity := assocSet st2.lastActivity callId now }
    | none => some st2

/-!  ## The media manager (csmm, src/csmm.c)  -/

/-- A Media Server feeder (`live_feeder_t`, csmm.c:87-97): stream name, the
free/reserved flag, and the configured type (`'M'`ono or `'S'`tereo). -/
structure LiveFeeder where
  stream : String
  free : Bool
  ftype : Char
  deriving DecidableEq, Repr

/-- A live call on the media-manager side (`live_call_t`, csmm.c:102-112).
The reserved feeder is modelled as an index into the fixed feeder pool
(`call->live_feeder` points into `ctx->live_feeders`). -/
structure LiveCall where
  ctype : Char
  feeder : Option Nat
  cachedA : Option (List Nat)
  cachedB : Option (List Nat)
  deriving DecidableEq, Repr

/-- Duplex live routing: the `call->call_type == 'D'` branch of
`csmm_voice_data_handler` (csmm.c:809-899), which runs when the call has a
reserved feeder.  Takes the cached partial frames and the incoming frame
(stream originator and payload); returns the new caches and the datagram
sent to the feeder, if any.  The merge loop iterates over the B frame's
size and reads the A frame at the same indices, so a B frame longer than
the cached A frame over-reads (undefined behaviour), modelled as `none`. -/
def csmm_route_duplex (cachedA cachedB : Option (List Nat))
    (originator : Nat) (data : List Nat) :
    Option ((Option (List Nat) × Option (List Nat)) × Option (List Nat)) :=
  if originator = 1 ∨ (originator = 2 ∧ cachedA ≠ none) then
    let a := if originator = 1 then some data else cachedA
    let b := if originator = 2 then some data else cachedB
    match a, b with
    | some av, some bv =>
        if bv.length ≤ av.length then
          some ((none, none), some (interleave_pair av bv))
        else none
    | some av, none => some ((some av, none), none)
    | none, b2 => some ((none, b2), none)
  else
    some ((cachedA, cachedB), none)

/-- Whether a feeder can serve a call, from the scan of
`csmm_start_broadcast_live_call` (csmm.c:950-970): the feeder is free, and
a Duplex call takes a Stereo feeder while a Simplex or Group call takes a
Mono feeder. -/
def feeder_matches (ctype : Char) (f : LiveFeeder) : Bool :=
  f.free && ((ctype = 'D' && f.ftype = 'S') ||
             ((ctype = 'S' || ctype = 'G') && f.ftype = 'M'))

/-- The feeder already held by the call, if it is actually reserved: the
condition `call->live_feeder && call->live_feeder->free == false` of
csmm.c:945. -/
def held_feeder (feeders : List LiveFeeder) (call : LiveCall) :
    Option LiveFeeder :=
  match call.feeder with
  | some i =>
    match feeders.get? i with
    | some f => if f.free then none else some f
    | none => none
  | none => none

/-- The feeder scan of `csmm_start_broadcast_live_call` (csmm.c:950-970):
walk the pool and stop at the first feeder that is free and of the type
matching the call.  Returns the feeder and its position in the pool. -/
def find_free_feeder (ctype : Char) : List LiveFeeder → Option (Nat × LiveFeeder)
  | [] => none
  | f :: fs =>
    if feeder_matches ctype f then some (0, f)
    else (find_free_feeder ctype fs).map (fun p => (p.1 + 1, p.2))

/-- `csmm_start_broadcast_live_call` (csmm.c:935-1002) for a call that is
live (the `call == NULL` reply is not modelled here; the claims quantify
over existing live calls).  Returns the reply (`true` = "OK" plus a stream
URL, `false` = "NOK" plus a diagnostic), the updated feeder pool, and the
updated call. -/
def csmm_start_broadcast_live_call (endpoint : String)
    (feeders : List LiveFeeder) (call : LiveCall) (fmt : String) :
    (Bool × String) × List LiveFeeder × LiveCall :=
  match held_feeder feeders call with
  | some f =>
      ((true, endpoint ++ "/" ++ f.stream ++ "." ++ fmt), feeders, call)
  | none =>
    match find_free_feeder call.ctype feeders with
    | some (j, f) =>
        ((true, endpoint ++ "/" ++ f.stream ++ "." ++ fmt),
         feeders.set j { f with free := false },
         { call with feeder := some j })
    | none => ((false, "Feeder not available"), feeders, call)

/-!  ## Recorded playback v2 (csmm.c) and its MD5 filename hashing

The MD5 routines are declared in md5.h and used by csmm.c via
`MD5_Init` / `MD5_Update` / `MD5_Final`; their implementation is not part
of the repository sources. -/

/-- Reduction modulo 2^32, the arithmetic of C `unsigned int`. -/
def u32 (n : Nat) : Nat := n % 4294967296

/-- Bitwise complement within 32 bits. -/
def not32 (x : Nat) : Nat := 4294967295 - x

/-- Rotate a 32-bit value left by `s` bits. -/
def rotl32 (x s : Nat) : Nat := u32 (x <<< s) ||| (x >>> (32 - s))

/-- Modelled from the spec: the MD5 round constants (the table
`K[i] = floor(abs(sin(i+1)) * 2^32)` of RFC 1321); the md5.h
implementation used by csmm.c is not under the repository sources. -/
def md5K : List Nat :=
  [0xD76AA478, 0xE8C7B756, 0x242070DB, 0xC1BDCEEE, 0xF57C0FAF, 0x4787C62A, 0xA8304613, 0xFD469501,
   0x698098D8, 0x8B44F7AF, 0xFFFF5BB1, 0x895CD7BE, 0x6B901122, 0xFD987193, 0xA679438E, 0x49B40821,
   0xF61E2562, 0xC040B340, 0x265E5A51, 0xE9B6C7AA, 0xD62F105D, 0x02441453, 0xD8A1E681, 0xE7D3FBC8,
   0x21E1CDE6, 0xC33707D6, 0xF4D50D87, 0x455A14ED, 0xA9E3E905, 0xFCEFA3F8, 0x676F02D9, 0x8D2A4C8A,
   0xFFFA3942, 0x8771F681, 0x6D9D6122, 0xFDE5380C, 0xA4BEEA44, 0x4BDECFA9, 0xF6BB4B60, 0xBEBFBC70,
   0x289B7EC6, 0xEAA127FA, 0xD4EF3085, 0x04881D05, 0xD9D4D039, 0xE6DB99E5, 0x1FA27CF8, 0xC4AC5665,
   0xF4292244, 0x432AFF97, 0xAB9423A7, 0xFC93A039, 0x655B59C3, 0x8F0CCC92, 0xFFEFF47D, 0x85845DD1,
   0x6FA87E4F, 0xFE2CE6E0, 0xA3014314, 0x4E0811A1, 0xF7537E82, 0xBD3AF235, 0x2AD7D2BB, 0xEB86D391]

/-- Modelled from the spec: the MD5 per-round left-rotation amounts of
RFC 1321. -/
def md5S : List Nat :=
  [7, 12, 17, 22, 7, 12, 17, 22, 7, 12, 17, 22, 7, 12, 17, 22,
   5, 9, 14, 20, 5, 9, 14, 20, 5, 9, 14, 20, 5, 9, 14, 20,
   4, 11, 16, 23, 4, 11, 16, 23, 4, 11, 16, 23, 4, 11, 16, 23,
   6, 10, 15, 21, 6, 10, 15, 21, 6, 10, 15, 21, 6, 10, 15, 21]

/-- Word `M[g]` of a 64-byte MD5 block: little-endian 32-bit read at byte
offset `4 * g`. -/
def md5word (blk : List Nat) (g : Nat) : Nat :=
  le32 (blk.getD (4 * g) 0) (blk.getD (4 * g + 1) 0)
      (blk.getD (4 * g + 2) 0) (blk.getD (4 * g + 3) 0)

/-- Modelled from the spec: one of the 64 MD5 rounds of RFC 1321 applied to
the state `(a, b, c, d)`. -/
def md5round (blk : List Nat) (st : Nat × Nat × Nat × Nat) (i : Nat) :
    Nat × Nat × Nat × Nat :=
  let a := st.1
  let b := st.2.1
  let c := st.2.2.1
  let d := st.2.2.2
  let fg : Nat × Nat :=
    if i < 16 then ((b &&& c) ||| (not32 b &&& d), i)
    else if i < 32 then ((d &&& b) ||| (not32 d &&& c), (5 * i + 1) % 16)
    else if i < 48 then (b ^^^ c ^^^ d, (3 * i + 5) % 16)
    else (c ^^^ (b ||| not32 d), (7 * i) % 16)
  let tmp := u32 (a + fg.1 + md5K.getD i 0 + md5word blk fg.2)
  (d, u32 (b + rotl32 tmp (md5S.getD i 0)), b, c)

/-- Modelled from the spec: MD5 compression of one 64-byte block. -/
def md5block (st : Nat × Nat × Nat × Nat) (blk : List Nat) :
    Nat × Nat × Nat × Nat :=
  let r := (List.range 64).foldl (md5round blk) st
  (u32 (st.1 + r.1), u32 (st.2.1 + r.2.1),
   u32 (st.2.2.1 + r.2.2.1), u32 (st.2.2.2 + r.2.2.2))

/-- Split a byte list into `n` blocks of 64 bytes. -/
def toBlocks64 : Nat → List Nat → List (List Nat)
  | 0, _ => []
  | n + 1, l => l.take 64 :: toBlocks64 n (l.drop 64)

/-- Modelled from the spec: RFC 1321 padding — append `0x80`, zero-pad to
56 mod 64, then the original length in bits as 8 little-endian bytes. -/
def md5pad (msg : List Nat) : List Nat :=
  let bitLen := 8 * msg.length % 18446744073709551616
  msg ++ [0x80] ++ List.replicate ((119 - msg.length % 64) % 64) 0 ++
    le32bytes (bitLen % 4294967296) ++ le32bytes (bitLen / 4294967296)

/-- Modelled from the spec: the MD5 digest (16 bytes) of a byte sequence,
per RFC 1321; stands in for the md5.h implementation (`MD5_Init`,
`MD5_Update`, `MD5_Final`) that csmm.c links against but whose source is
not in the repository. -/
def md5 (msg : List Nat) : List Nat :=
  let padded := md5pad msg
  let st := (toBlocks64 (padded.length / 64) padded).foldl md5block
    (0x67452301, 0xEFCDAB89, 0x98BADCFE, 0x10325476)
  le32bytes st.1 ++ le32bytes st.2.1 ++ le32bytes st.2.2.1 ++ le32bytes st.2.2.2

/-- Lower-case hexadecimal digit, as produced by `sprintf ("%02x", …)`. -/
def hexDigit (n : Nat) : Char :=
  Char.ofNat (if n < 10 then 48 + n else 87 + n)

/-- The hex rendering loop `for (i = 0; i < 16; i++) … sprintf ("%02x", …)`
of csmm.c applied to a digest: two lower-case hex characters per byte. -/
def md5hex (digest : List Nat) : String :=
  String.mk (digest.flatMap (fun n => [hexDigit (n / 16 % 16), hexDigit (n % 16)]))

/-- The bytes of an ASCII string as fed to `MD5_Update`. -/
def strBytes (s : String) : List Nat := s.data.map Char.toNat

/-- The hashed playback filename computed by `csmm_start_play_call_v2` /
`csmm_copy_db_voice_call_to_file_v2` (csmm.c:1278-1300, 1475-1498):
`snprintf ("voice_%d_%d_%s", call_dbId, call_id, session)`, MD5, then 16
bytes rendered `%02x`.  The ids are the `atoi` results stored in the
`UINT32` locals, so their values lie in the C `int` range and `%d` prints
them back verbatim. -/
def csmm_start_play_call_v2_hashed (call_dbId call_id : Int)
    (session : String) : String :=
  md5hex (md5 (strBytes
    ("voice_" ++ toString call_dbId ++ "_" ++ toString call_id ++ "_" ++ session)))

/-- The hashed playback filename computed independently by
`csmm_stop_play_call_v2` (csmm.c:1566-1588), from the same
`"voice_%d_%d_%s"` string. -/
def csmm_stop_play_call_v2_hashed (call_dbId call_id : Int)
    (session : String) : String :=
  md5hex (md5 (strBytes
    ("voice_" ++ toString call_dbId ++ "_" ++ toString call_id ++ "_" ++ session)))

/-- The reply of a successful `START_PLAY_CALL` v2 (csmm.c:1500-1504):
"OK" and the URL `/<voicerec_url>/<hash>.<format>`. -/
def csmm_start_play_call_v2_reply (voicerec_url : String)
    (call_dbId call_id : Int) (fmt session : String) : Bool × String :=
  (true, "/" ++ voicerec_url ++ "/" ++
    csmm_start_play_call_v2_hashed call_dbId call_id session ++ "." ++ fmt)

/-- The file materialized by a successful `START_PLAY_CALL` v2
(csmm.c:1302-1309): `<voicerec_repo>/<hash>.<format>`. -/
def csmm_start_play_call_v2_file (voicerec_repo : String)
    (call_dbId call_id : Int) (fmt session : String) : String :=
  voicerec_repo ++ "/" ++
    csmm_start_play_call_v2_hashed call_dbId call_id session ++ "." ++ fmt

/-- The path unlinked by `STOP_PLAY_CALL` v2 (csmm.c:1590-1598):
`<voicerec_repo>/<hash>.<format>`. -/
def csmm_stop_play_call_v2_deleted (voicerec_repo : String)
    (call_dbId call_id : Int) (fmt session : String) : String :=
  voicerec_repo ++ "/" ++
    csmm_stop_play_call_v2_hashed call_dbId call_id session ++ "." ++ fmt

/-- A complete 500-byte voice record: "LOG2" signature, payload-1 kind 7 at
byte 18, 480 payload bytes. -/
def sampleVoiceRecord : List Nat :=
  [0x4C, 0x4F, 0x47, 0x32] ++ List.replicate 14 0 ++ [7, 0] ++
    List.replicate 480 3

/-!  ## Theorems  -/

set_option maxRecDepth 20000

/-- Claim C1 (code defect): the parse loop does not emit one event per
well-formed record for every datagram split.  The single 104-byte
keep-alive record parsed in one datagram emits exactly its one event, but
split as 5 + 99 bytes it emits nothing: with fewer than 8 buffered bytes
`cscol_analyze_message_header` leaves `ctx->current_header` unread, the
`switch` runs on the initial (unknown) message id 0 and consumes one byte
of the signature as junk, destroying the record. -/
theorem c1_keepalive_split_dropped :
    (cscol_run cscol_initial [keepAliveRecord]).2 =
      [CscolEvent.signal 0x01 keepAliveRecord] ∧
    (cscol_run cscol_initial
        [keepAliveRecord.take 5, keepAliveRecord.drop 5]).2 = [] := by
  decide

/-- Claim C3 counterexample: the WAV header `fill_wav_header` builds is 58
bytes long, not 46, and its RIFF size for M = 0 data bytes is 50, not
M + 46 − 8 = 38 (the header carries an 18-byte `fmt ` body plus a `fact`
chunk, so total − 8 is 50 + M). -/
theorem c3_header_not_46_bytes :
    (waveHeaderBytes (fill_wav_header 'S' 0)).length ≠ 46 ∧
    (fill_wav_header 'S' 0).riffSize ≠ 0 + 46 - 8 := by
  decide

/-- Claim C3 as amended: the WAV header is 58 bytes long; for M data bytes
it declares data chunk size M and RIFF size M + 58 − 8 (mod 2^32, the
`UINT32` arithmetic); a duplex recording declares 2 channels and
block-align 2, a mono one 1 and 1, with the same data-size arithmetic;
format tag 6, sample rate 8000, 8 bits per sample in both cases. -/
theorem c3_wav_header_58 (call_type : Char) (M : Nat) :
    (waveHeaderBytes (fill_wav_header call_type M)).length = 58 ∧
    (fill_wav_header call_type M).dataSize = M % 4294967296 ∧
    (fill_wav_header call_type M).dwSampleLength = M % 4294967296 ∧
    (fill_wav_header call_type M).riffSize = (M + 58 - 8) % 4294967296 ∧
    (fill_wav_header call_type M).nChannels =
      (if call_type = 'D' then 2 else 1) ∧
    (fill_wav_header call_type M).nBlockAlign =
      (if call_type = 'D' then 2 else 1) ∧
    (fill_wav_header call_type M).wFormatTag = 6 ∧
    (fill_wav_header call_type M).nSamplesPerSec = 8000 ∧
    (fill_wav_header call_type M).wBitsPerSample = 8 := by
  refine ⟨?_, ?_, ?_, ?_, ?_, ?_, ?_, ?_, ?_⟩ <;>
    simp [waveHeaderBytes, fill_wav_header, le16bytes, le32bytes]
  omega

/-- Claim C9 counterexample: the duration passed to the database writer is
not `total_voice_bytes / byterate`.  For a mono call with M = 0 voice
bytes the claim demands 0 seconds, but `fill_wav_header` divides the RIFF
size (which includes 50 header bytes) by the byte rate, yielding
50 / 8000 seconds. -/
theorem c9_duration_includes_header :
    wav_duration_seconds 'S' 0 ≠ (0 : ℚ) / 8000 ∧
    wav_duration_seconds 'S' 0 = 50 / 8000 := by
  have hSD : ('S' : Char) ≠ 'D' := by decide
  constructor <;> norm_num [wav_duration_seconds, fill_wav_header, hSD]

/-- Claim C9 as amended: the duration value computed for the database
duration column equals the RIFF size — the voice byte count M plus the 50
non-RIFF-id header bytes, mod 2^32 — divided by
`sample_rate × channels × bits_per_sample/8` seconds, i.e.
((M + 50) mod 2^32) / 8000 for mono and ((M + 50) mod 2^32) / 16000 for
duplex. -/
theorem c9_duration_riffsize (call_type : Char) (M : Nat) :
    wav_duration_seconds call_type M =
      (((M + 50) % 4294967296 : Nat) : ℚ) /
        (8000 * (if call_type = 'D' then 2 else 1)) := by
  have hcomm : (4 + 26 + 12 + 8 + M % 4294967296) % 4294967296 =
      (M + 50) % 4294967296 := by omega
  have hriff : (fill_wav_header call_type M).riffSize = (M + 50) % 4294967296 :=
    hcomm
  have hcomm2 : (50 + M) % 4294967296 = (M + 50) % 4294967296 := by omega
  by_cases hD : call_type = 'D' <;>
    · simp only [wav_duration_seconds, hriff, fill_wav_header, hD, if_pos,
        if_neg, ite_true, ite_false]
      norm_num [hD]
      rw [hcomm2]

/-- Claim C10 (code defect): the receive call is always permitted to store
`CSCOL_BUFFER_LENGTH` = 4096 bytes at `buffer + buffer_offset`, so any
reachable state with a nonzero carried tail can overflow the 4096-byte
buffer.  A first datagram of 4 junk bytes is carried whole
(`buffer_offset` = 4), after which offset + permitted = 4100 > 4096. -/
theorem c10_recv_length_overflows :
    (cscol_run cscol_initial [[0, 0, 0, 0]]).1.leftover.length = 4 ∧
    CSCOL_BUFFER_LENGTH <
      (cscol_run cscol_initial [[0, 0, 0, 0]]).1.leftover.length +
        cscol_recv_capacity (cscol_run cscol_initial [[0, 0, 0, 0]]).1 := by
  decide

/-- Claim C4 (code defect): a voice frame whose call id has no Call entry is
not dropped with a protocol-error log; `cspm_cache_voice_data` dereferences
the NULL result of the `voice_calls_types` lookup before any null check
(part_002:903 and 908), which is undefined behaviour (modelled `none`)
instead of the intended drop that leaves the state unchanged. -/
theorem c4_voice_without_setup_crashes (st : CspmState) (now callId originator : Nat)
    (data : List Nat) (h : st.types.lookup callId = none) :
    cspm_cache_voice_data st now callId originator data = none := by
  unfold cspm_cache_voice_data
  rw [h]

/-- Witness for C4: a 480-byte voice frame for call 5 arriving at the empty
persister state hits the NULL dereference. -/
theorem c4_voice_without_setup_crashes_witness :
    cspmEmpty.types.lookup 5 = none ∧
    cspm_cache_voice_data cspmEmpty 0 5 1 (List.replicate 480 0) = none :=
  ⟨by decide, c4_voice_without_setup_crashes cspmEmpty 0 5 1
    (List.replicate 480 0) (by decide)⟩

/-- Claim C7: when the next four buffered bytes form the voice signature,
the loop iteration consumes exactly 20 + 480 bytes if they fit — emitting
a voice event exactly when byte 18 (`m_uiPayload1Info`) is 7 — and
consumes nothing when fewer than 20 + 480 bytes are buffered
(`cscol_analyze_voice`, part_000:1108-1137). -/
theorem c7_voice_step (staleMsgId : Nat) (buf : List Nat)
    (hsig : le32 (buf.getD 0 0) (buf.getD 1 0) (buf.getD 2 0) (buf.getD 3 0) =
      VOICE_PROTOCOL_SIGNATURE) :
    (500 ≤ buf.length →
      cscol_parse_step staleMsgId buf =
        ((if buf.getD 18 0 = 7 then
            [CscolEvent.voice (buf.take 20) ((buf.drop 20).take 480)]
          else []), 500, staleMsgId)) ∧
    (buf.length < 500 →
      cscol_parse_step staleMsgId buf = ([], 0, staleMsgId)) := by
  simp only [List.getD_eq_getElem?_getD] at hsig
  constructor
  · intro hlen
    simp [cscol_parse_step, hsig, VOICE_PROTOCOL_SIGNATURE,
      LOG_API_PROTOCOL_SIGNATURE, hlen]
  · intro hlen
    have h2 : ¬ (500 ≤ buf.length) := by omega
    simp [cscol_parse_step, hsig, VOICE_PROTOCOL_SIGNATURE,
      LOG_API_PROTOCOL_SIGNATURE, h2]

/-- The index-wise merge loop coincides with the zip-wise sample
interleaving `A0, B0, A1, B1, …` when the two chunks have equal length. -/
theorem interleave_pair_eq_perfect (a b : List Nat) (h : a.length = b.length) :
    interleave_pair a b = perfectInterleave a b := by
  induction b generalizing a with
  | nil =>
    cases a with
    | nil => rfl
    | cons x xs => simp at h
  | cons y ys ih =>
    cases a with
    | nil => simp at h
    | cons x xs =>
      have h2 : xs.length = ys.length := by simpa using h
      have hrec := ih xs h2
      simp only [interleave_pair, perfectInterleave,
        List.getD_eq_getElem?_getD] at hrec
      simp [interleave_pair, perfectInterleave, List.range_succ_eq_map,
        List.flatMap_map, List.zip_cons_cons, Function.comp, hrec]

/-- Under lockstep-equal chunk lengths the C merge loop of
`cspm_save_voice_data` is defined and produces the perfect interleaving of
the zipped chunk pairs; trailing chunks of the longer list never appear. -/
theorem cspm_merge_duplex_eq_perfect : ∀ (as bs : List (List Nat)),
    (∀ p ∈ as.zip bs, p.1.length = p.2.length) →
    cspm_merge_duplex as bs =
      some (((as.zip bs).map (fun p => perfectInterleave p.1 p.2)).flatten)
  | as, [], _ => by cases as <;> simp [cspm_merge_duplex]
  | [], _ :: _, _ => by simp [cspm_merge_duplex]
  | a :: as, b :: bs, h => by
    have hab : a.length = b.length := h (a, b) (by simp)
    have hrec := cspm_merge_duplex_eq_perfect as bs
      (fun p hp => h p (by simp [hp]))
    simp [cspm_merge_duplex, hab.ge, hrec,
      interleave_pair_eq_perfect a b hab]

/-- The length of the perfect sample interleaving of two chunks. -/
theorem perfectInterleave_length (a b : List Nat) :
    (perfectInterleave a b).length = 2 * min a.length b.length := by
  induction a generalizing b with
  | nil => simp [perfectInterleave]
  | cons x xs ih =>
    cases b with
    | nil => simp [perfectInterleave]
    | cons y ys =>
      have hr := ih ys
      simp only [perfectInterleave] at hr
      simp [perfectInterleave, List.zip_cons_cons, hr]
      omega

/-- Claim C2: at finalization of a Duplex call the persister merges the
stream-A and stream-B chunk lists in lockstep; given pairwise equal chunk
lengths, each pair is interleaved sample-by-sample `A0, B0, A1, B1, …`,
excess trailing chunks of the longer stream do not reach the recording,
the discard warning fires exactly when the chunk counts differ, and the
materialized recording is the WAV header followed by the interleaving of
both streams. -/
theorem c2_duplex_interleave (as bs : List (List Nat))
    (h : ∀ p ∈ as.zip bs, p.1.length = p.2.length) :
    cspm_save_voice_data 'D' as bs =
      some (decide (as.length ≠ bs.length),
        waveHeaderBytes (fill_wav_header 'D' (cspm_duplex_len as bs)) ++
          ((as.zip bs).map (fun p => perfectInterleave p.1 p.2)).flatten) := by
  simp [cspm_save_voice_data, cspm_merge_duplex_eq_perfect as bs h]

/-- Witness for C2: two stream-A chunks against one stream-B chunk of
matching length; the single pair is interleaved, the excess A chunk is
dropped, and the warning fires. -/
theorem c2_duplex_interleave_witness :
    (∀ p ∈ ([[1, 2], [3, 4]] : List (List Nat)).zip [[5, 6]],
        p.1.length = p.2.length) ∧
    cspm_save_voice_data 'D' [[1, 2], [3, 4]] [[5, 6]] =
      some (true, waveHeaderBytes (fill_wav_header 'D' 4) ++ [1, 5, 2, 6]) := by
  refine ⟨by decide, ?_⟩
  rw [c2_duplex_interleave [[1, 2], [3, 4]] [[5, 6]] (by decide)]
  decide

/-- Claim C5: in live routing of an intercepted Duplex call, a B frame
that finds a cached A frame of equal length L produces exactly one merged
2L-byte datagram with bytes `A0, B0, …, A(L−1), B(L−1)` and clears both
caches, while a B frame with no cached A frame is dropped and changes
nothing. -/
theorem c5_duplex_pair_routing (A B : List Nat) (cachedB : Option (List Nat))
    (L : Nat) (hA : A.length = L) (hB : B.length = L) :
    (csmm_route_duplex (some A) cachedB 2 B =
        some ((none, none), some (perfectInterleave A B)) ∧
      (perfectInterleave A B).length = 2 * L) ∧
    csmm_route_duplex none cachedB 2 B = some ((none, cachedB), none) := by
  refine ⟨⟨?_, ?_⟩, ?_⟩
  · have hle : B.length ≤ A.length := by omega
    simp [csmm_route_duplex, hle,
      interleave_pair_eq_perfect A B (by omega)]
  · rw [perfectInterleave_length, hA, hB]
    simp
  · simp [csmm_route_duplex]

/-- Witness for C5: a cached 3-byte A frame paired with a 3-byte B frame
yields the single 6-byte interleaved datagram and clears both caches; the
same B frame with no cached A frame is dropped. -/
theorem c5_duplex_pair_routing_witness :
    csmm_route_duplex (some [1, 2, 3]) none 2 [4, 5, 6] =
      some ((none, none), some [1, 4, 2, 5, 3, 6]) ∧
    csmm_route_duplex none none 2 [4, 5, 6] = some ((none, none), none) := by
  have h := c5_duplex_pair_routing [1, 2, 3] [4, 5, 6] none 3 (by decide) (by decide)
  refine ⟨?_, h.2⟩
  rw [h.1.1]
  decide

/-- Witness for C7: the concrete 500-byte voice record is consumed whole
and emits its voice event; its 499-byte prefix consumes nothing. -/
theorem c7_voice_step_witness :
    cscol_parse_step 0 sampleVoiceRecord =
      ([CscolEvent.voice (sampleVoiceRecord.take 20)
          ((sampleVoiceRecord.drop 20).take 480)], 500, 0) ∧
    cscol_parse_step 0 (sampleVoiceRecord.take 499) = ([], 0, 0) := by
  constructor
  · have h := (c7_voice_step 0 sampleVoiceRecord (by decide)).1 (by decide)
    rw [h]
    decide
  · have h := (c7_voice_step 0 (sampleVoiceRecord.take 499) (by decide)).2
      (by decide)
    exact h

/-- Correctness of the feeder scan: a found feeder sits at the returned pool
index and is free and type-compatible with the call. -/
theorem find_free_feeder_spec (ctype : Char) :
    ∀ (fs : List LiveFeeder) (j : Nat) (f : LiveFeeder),
      find_free_feeder ctype fs = some (j, f) →
      fs.get? j = some f ∧ feeder_matches ctype f = true := by
  intro fs
  induction fs with
  | nil => intro j f h; simp [find_free_feeder] at h
  | cons g gs ih =>
    intro j f h
    by_cases hg : feeder_matches ctype g
    · simp only [find_free_feeder, if_pos hg, Option.some.injEq,
        Prod.mk.injEq] at h
      obtain ⟨hj, hf⟩ := h
      subst hj; subst hf
      simp [hg]
    · simp only [find_free_feeder, if_neg hg, Option.map_eq_some'] at h
      obtain ⟨⟨j2, f2⟩, hfind, he⟩ := h
      obtain ⟨hj, hf⟩ := Prod.mk.injEq .. ▸ he
      subst hj; subst hf
      have := ih j2 f2 hfind
      simpa using this

/-- When no feeder in the pool is free and type-compatible, the scan finds
nothing. -/
theorem find_free_feeder_none (ctype : Char) :
    ∀ fs : List LiveFeeder,
      (∀ f ∈ fs, feeder_matches ctype f = false) →
      find_free_feeder ctype fs = none := by
  intro fs
  induction fs with
  | nil => intro _; rfl
  | cons g gs ih =>
    intro h
    have hg : feeder_matches ctype g = false := h g (by simp)
    simp [find_free_feeder, hg, ih (fun f hf => h f (by simp [hf]))]

/-- Claim C6: on a `START_CALL_INTERCEPTION` for a live call, (a) a call
already holding a reserved feeder gets that feeder's stream URL back with
no state change; (b) a fresh reservation only ever takes a feeder that was
free and type-compatible — Stereo for a Duplex call, Mono for a Simplex or
Group call — flipping exactly that feeder's flag; (c) with no free
compatible feeder the reply is NOK "Feeder not available" and no feeder
flag changes. -/
theorem c6_feeder_reservation (endpoint : String) (feeders : List LiveFeeder)
    (call : LiveCall) (fmt : String) :
    (∀ f, held_feeder feeders call = some f →
      csmm_start_broadcast_live_call endpoint feeders call fmt =
        ((true, endpoint ++ "/" ++ f.stream ++ "." ++ fmt), feeders, call)) ∧
    (held_feeder feeders call = none →
      ∀ j f, find_free_feeder call.ctype feeders = some (j, f) →
        feeders.get? j = some f ∧ f.free = true ∧
        (call.ctype = 'D' → f.ftype = 'S') ∧
        (call.ctype = 'S' ∨ call.ctype = 'G' → f.ftype = 'M') ∧
        csmm_start_broadcast_live_call endpoint feeders call fmt =
          ((true, endpoint ++ "/" ++ f.stream ++ "." ++ fmt),
           feeders.set j { f with free := false },
           { call with feeder := some j })) ∧
    (held_feeder feeders call = none →
      (∀ f ∈ feeders, feeder_matches call.ctype f = false) →
      csmm_start_broadcast_live_call endpoint feeders call fmt =
        ((false, "Feeder not available"), feeders, call)) := by
  refine ⟨?_, ?_, ?_⟩
  · intro f hf
    simp [csmm_start_broadcast_live_call, hf]
  · intro hnone j f hfind
    obtain ⟨hget, hmatch⟩ := find_free_feeder_spec call.ctype feeders j f hfind
    simp only [feeder_matches, Bool.and_eq_true, Bool.or_eq_true,
      decide_eq_true_eq] at hmatch
    obtain ⟨hfree, htype⟩ := hmatch
    refine ⟨hget, hfree, ?_, ?_, ?_⟩
    · intro hD
      rcases htype with ⟨_, hS⟩ | ⟨hSG, _⟩
      · exact hS
      · rcases hSG with hS | hG
        · simp [hD] at hS
        · simp [hD] at hG
    · intro hSG
      rcases htype with ⟨hD, _⟩ | ⟨_, hM⟩
      · rcases hSG with hS | hG
        · simp [hS] at hD
        · simp [hG] at hD
      · exact hM
    · simp [csmm_start_broadcast_live_call, hnone, hfind]
  · intro hnone hall
    simp [csmm_start_broadcast_live_call, hnone,
      find_free_feeder_none call.ctype feeders hall]

/-- Witness for C6, mirroring scenario S5: with both Mono feeders reserved
and only a Stereo feeder free, a third Simplex interception gets
NOK "Feeder not available" and no flag changes; a Simplex call against a
free Mono pool reserves it; a call already holding feeder 0 just gets its
URL back. -/
theorem c6_feeder_reservation_witness :
    csmm_start_broadcast_live_call "ms"
        [⟨"m1", false, 'M'⟩, ⟨"m2", false, 'M'⟩, ⟨"s1", true, 'S'⟩]
        ⟨'S', none, none, none⟩ "wav" =
      ((false, "Feeder not available"),
       [⟨"m1", false, 'M'⟩, ⟨"m2", false, 'M'⟩, ⟨"s1", true, 'S'⟩],
       ⟨'S', none, none, none⟩) ∧
    csmm_start_broadcast_live_call "ms" [⟨"m1", true, 'M'⟩]
        ⟨'S', none, none, none⟩ "wav" =
      ((true, "ms/m1.wav"), [⟨"m1", false, 'M'⟩],
       ⟨'S', some 0, none, none⟩) ∧
    csmm_start_broadcast_live_call "ms" [⟨"m1", false, 'M'⟩]
        ⟨'S', some 0, none, none⟩ "wav" =
      ((true, "ms/m1.wav"), [⟨"m1", false, 'M'⟩],
       ⟨'S', some 0, none, none⟩) := by
  refine ⟨?_, ?_, ?_⟩
  · exact (c6_feeder_reservation "ms"
      [⟨"m1", false, 'M'⟩, ⟨"m2", false, 'M'⟩, ⟨"s1", true, 'S'⟩]
      ⟨'S', none, none, none⟩ "wav").2.2 (by decide) (by decide)
  · have h := ((c6_feeder_reservation "ms" [⟨"m1", true, 'M'⟩]
      ⟨'S', none, none, none⟩ "wav").2.1 (by decide) 0 ⟨"m1", true, 'M'⟩
      (by decide)).2.2.2.2
    rw [h]
    decide
  · have h := (c6_feeder_reservation "ms" [⟨"m1", false, 'M'⟩]
      ⟨'S', some 0, none, none⟩ "wav").1 ⟨"m1", false, 'M'⟩ (by decide)
    rw [h]
    decide

/-- Length of the MD5 digest: always 16 bytes. -/
theorem md5_length (msg : List Nat) : (md5 msg).length = 16 := by
  simp [md5, le32bytes]

/-- Length of the hex rendering: two characters per digest byte. -/
theorem md5hex_length (l : List Nat) : (md5hex l).length = 2 * l.length := by
  induction l with
  | nil => rfl
  | cons x xs ih =>
    simp only [md5hex, String.length, List.flatMap_cons, List.length_append,
      List.length_cons] at ih ⊢
    simp at ih ⊢
    omega

/-- Claim C8 (the MD5 core is modelled from the spec, RFC 1321, because
only md5.h's interface appears in the sources): for every playback triple,
`START_PLAY_CALL` v2 and `STOP_PLAY_CALL` v2 derive the same deterministic
32-hex-character MD5 name from `voice_<db>_<id>_<session>`; a successful
start replies OK with `/<voicerec_url>/<hash>.<format>` and materializes
`<voicerec_repo>/<hash>.<format>`, and the stop deletes exactly that
file.  The id hypotheses state the C `int` range of the `atoi` results
that `%d` renders back verbatim. -/
theorem c8_playback_hash (voicerec_url voicerec_repo : String) (db id : Int)
    (fmt session : String)
    (_hdb : -2147483648 ≤ db ∧ db < 2147483648)
    (_hid : -2147483648 ≤ id ∧ id < 2147483648) :
    csmm_start_play_call_v2_hashed db id session =
      csmm_stop_play_call_v2_hashed db id session ∧
    csmm_start_play_call_v2_hashed db id session =
      md5hex (md5 (strBytes
        ("voice_" ++ toString db ++ "_" ++ toString id ++ "_" ++ session))) ∧
    (csmm_start_play_call_v2_hashed db id session).length = 32 ∧
    csmm_start_play_call_v2_reply voicerec_url db id fmt session =
      (true, "/" ++ voicerec_url ++ "/" ++
        csmm_start_play_call_v2_hashed db id session ++ "." ++ fmt) ∧
    csmm_start_play_call_v2_file voicerec_repo db id fmt session =
      voicerec_repo ++ "/" ++
        csmm_start_play_call_v2_hashed db id session ++ "." ++ fmt ∧
    csmm_stop_play_call_v2_deleted voicerec_repo db id fmt session =
      csmm_start_play_call_v2_file voicerec_repo db id fmt session := by
  refine ⟨rfl, rfl, ?_, rfl, rfl, rfl⟩
  rw [csmm_start_play_call_v2_hashed, md5hex_length, md5_length]

/-- Witness for C8, mirroring scenario S6: the triple (42, 100, "sess")
hashes to the MD5 of "voice_42_100_sess" on both the start and stop
paths, 32 hex characters, and the URL and repository paths agree. -/
theorem c8_playback_hash_witness :
    csmm_start_play_call_v2_hashed 42 100 "sess" =
      "a7c4f80c38f69272db500338c5a414ad" ∧
    csmm_start_play_call_v2_hashed 42 100 "sess" =
      csmm_stop_play_call_v2_hashed 42 100 "sess" ∧
    (csmm_start_play_call_v2_hashed 42 100 "sess").length = 32 ∧
    csmm_start_play_call_v2_reply "voicerec" 42 100 "wav" "sess" =
      (true, "/voicerec/a7c4f80c38f69272db500338c5a414ad.wav") ∧
    csmm_stop_play_call_v2_deleted "repo" 42 100 "wav" "sess" =
      csmm_start_play_call_v2_file "repo" 42 100 "wav" "sess" := by
  have h := c8_playback_hash "voicerec" "repo" 42 100 "wav" "sess"
    (by decide) (by decide)
  have hd : csmm_start_play_call_v2_hashed 42 100 "sess" =
      "a7c4f80c38f69272db500338c5a414ad" := by decide
  refine ⟨hd, h.1, h.2.2.1, ?_, h.2.2.2.2.2⟩
  rw [h.2.2.2.1, hd]
  decide

end CsServer
